import Mathlib

/-!
# Voice-detection demo: verification of the scoring pipeline

Shallow embedding of the repository's core pipeline (`mock_ai_detection`,
`decode_audio`, `detect_voice` in `src/main.py` and `src/m.py`).

The pipeline seeds Python's global `random` generator (CPython's MT19937)
from the first 16 hex digits of the SHA-256 digest of the audio bytes, and
then draws from it in a fixed order.  We embed:

* CPython's MT19937 (`init_by_array` seeding as performed by `random.seed`
  on an `int`, `genrand_uint32`, and the module-level helpers `random`,
  `randint`, `sample`, `uniform`, including `_randbelow_with_getrandbits`'s
  rejection loop, which we bound with an explicit fuel parameter);
* SHA-256 over byte lists;
* the two `mock_ai_detection` functions, `decode_audio`, and the core of
  `detect_voice`.

Python float arithmetic is modelled by exact rational arithmetic (draws are
kept as exact dyadic rationals `a / 2^53`), and Python's `round(x, n)` by
round-half-to-even on the rational value.  The C `uint32_t` arrays (the
MT19937 state vector, the SHA-256 word arrays) are represented as a single
`Nat` packing word `i` into bits `[32*i, 32*i+32)`; every read is reduced
`% 2^32`, mirroring the machine word type.  Loops are expressed with the
iterator `natIter`, which forces its accumulator at every step so that
concrete runs reduce iteratively inside the kernel.
-/

set_option maxRecDepth 100000

deriving instance DecidableEq for Except

namespace VoiceDemo

/- Rational arithmetic must evaluate inside `decide` proofs about concrete
payloads; Batteries marks these operations `irreducible` by default. -/
attribute [local semireducible] Rat.mul Rat.inv Rat.add Rat.sub

/-- 2^32, the modulus of the generator's 32-bit words. -/
def U32 : Nat := 4294967296

/-- Iterate `f` a fixed number of times.  The accumulator is forced through
`Nat.casesOn` at each step, keeping kernel reduction of concrete runs
shallow (iterative rather than building a tower of thunks). -/
def natIter (f : Nat → Nat) : Nat → Nat → Nat
  | 0, a => a
  | n + 1, a =>
      Nat.casesOn (motive := fun _ => Nat) (f a)
        (natIter f n 0) (fun m => natIter f n (m + 1))

theorem natIter_succ (f : Nat → Nat) (n a : Nat) :
    natIter f (n + 1) a = natIter f n (f a) := by
  show Nat.casesOn (motive := fun _ => Nat) (f a) _ _ = _
  cases h : f a <;> simp [h]

/-- Read word `i` of a packed `uint32` array. -/
def wget (v i : Nat) : Nat := (v >>> (32 * i)) % U32

/-- Write word `i` of a packed `uint32` array (the value is masked to 32
bits, as by the C store). -/
def wset (v i x : Nat) : Nat :=
  v - ((wget v i) <<< (32 * i)) + ((x % U32) <<< (32 * i))

/-! ## CPython's MT19937 (`_randommodule.c`) -/

/-- Loop body of `init_genrand`:
`mt[i] = 1812433253 * (mt[i-1] ^ (mt[i-1] >> 30)) + i` (mod 2^32).
The state packs the array above the loop index: `P = mt * 2^32 + i`. -/
def igStep (P : Nat) : Nat :=
  let i := P % U32
  let mt := P >>> 32
  let prev := wget mt (i - 1)
  let v := 1812433253 * (prev ^^^ (prev >>> 30)) + i
  ((wset mt i v) <<< 32) + (i + 1)

/-- `init_genrand s`: `mt[0] = s`, then the recurrence for `i = 1..623`. -/
def initGenrand (s : Nat) : Nat :=
  (natIter igStep 623 (((s % U32) : Nat) <<< 32 + 1)) >>> 32

/-- Loop body of the first `init_by_array` loop:
`mt[i] = (mt[i] ^ ((mt[i-1] ^ (mt[i-1] >> 30)) * 1664525)) + key[j] + j`,
then `i`, `j` advance with the wrap-arounds of the C code.
State: `P = mt * 2^64 + j * 2^32 + i`. -/
def ibaStep1 (key : List Nat) (P : Nat) : Nat :=
  let i := P % U32
  let j := (P >>> 32) % U32
  let mt := P >>> 64
  let prev := wget mt (i - 1)
  let p := ((prev ^^^ (prev >>> 30)) * 1664525) % U32
  let mt := wset mt i ((wget mt i ^^^ p) + key.getD j 0 + j)
  let i := i + 1
  let j := j + 1
  let mti := if 624 ≤ i then (wset mt 0 (wget mt 623), 1) else (mt, i)
  let j := if key.length ≤ j then 0 else j
  (mti.1 <<< 64) + (j <<< 32) + mti.2

/-- Loop body of the second `init_by_array` loop:
`mt[i] = (mt[i] ^ ((mt[i-1] ^ (mt[i-1] >> 30)) * 1566083941)) - i`
(mod 2^32).  State: `P = mt * 2^32 + i`. -/
def ibaStep2 (P : Nat) : Nat :=
  let i := P % U32
  let mt := P >>> 32
  let prev := wget mt (i - 1)
  let p := ((prev ^^^ (prev >>> 30)) * 1566083941) % U32
  let mt := wset mt i ((wget mt i ^^^ p) + U32 - i)
  let i := i + 1
  let mti := if 624 ≤ i then (wset mt 0 (wget mt 623), 1) else (mt, i)
  (mti.1 <<< 32) + mti.2

/-- `init_by_array` from CPython's `_randommodule.c`.  The index `i` is
carried over from the first loop into the second, as in the C code. -/
def initByArray (key : List Nat) : Nat :=
  let mt0 := initGenrand 19650218
  let kmax := max 624 key.length
  let s1 := natIter (ibaStep1 key) kmax ((mt0 <<< 64) + 1)
  let mt2 := (natIter ibaStep2 623 (((s1 >>> 64) <<< 32) + s1 % U32)) >>> 32
  wset mt2 0 2147483648

/-- Fuel-driven helper for `bitLength` (structural recursion keeps it
kernel-reducible; fuel `n` always suffices since `2^n > n`). -/
def bitLenAux : Nat → Nat → Nat
  | 0, _ => 0
  | fuel + 1, n => if n = 0 then 0 else bitLenAux fuel (n / 2) + 1

/-- Python `int.bit_length`. -/
def bitLength (n : Nat) : Nat := bitLenAux n n

/-- The key `random.seed(n)` passes to `init_by_array` for a non-negative
`int n`: the little-endian 32-bit digits of `n` (at least one digit). -/
def seedKey (n : Nat) : List Nat :=
  (List.range (max 1 ((bitLength n + 31) / 32))).map (fun i => (n >>> (32 * i)) % U32)

/-- State of the generator: the packed 624-word vector and the index `mti`. -/
structure Gen where
  mt : Nat
  mti : Nat
deriving DecidableEq

/-- The generator state right after `random.seed(n)` (`mti = N` forces a
twist on the first draw, as in the C code). -/
def seedGen (n : Nat) : Gen := ⟨initByArray (seedKey n), 624⟩

/-- Loop body of the MT19937 twist.  State: `P = mt * 2^32 + i`. -/
def twistStep (P : Nat) : Nat :=
  let i := P % U32
  let mt := P >>> 32
  let y := (wget mt i &&& 2147483648) ||| (wget mt ((i + 1) % 624) &&& 2147483647)
  let v := wget mt ((i + 397) % 624) ^^^ (y >>> 1) ^^^
    (if y % 2 = 1 then 2567483615 else 0)
  ((wset mt i v) <<< 32) + (i + 1)

/-- The full MT19937 state regeneration. -/
def twist (mt : Nat) : Nat := (natIter twistStep 624 (mt <<< 32)) >>> 32

/-- MT19937 tempering. -/
def temper (y : Nat) : Nat :=
  let y := y ^^^ (y >>> 11)
  let y := y ^^^ ((y <<< 7) &&& 2636928640)
  let y := y ^^^ ((y <<< 15) &&& 4022730752)
  y ^^^ (y >>> 18)

/-- `genrand_uint32`: twist when the index is exhausted, then temper the
next word. -/
def genrand (g : Gen) : Nat × Gen :=
  if 624 ≤ g.mti then
    let mt := twist g.mt
    (temper (wget mt 0), ⟨mt, 1⟩)
  else
    (temper (wget g.mt g.mti), ⟨g.mt, g.mti + 1⟩)

/-- The first word drawn from the generator seeded with the
`ff fb 31 37 37 31` payload's fingerprint. -/
theorem genrand_cex_first : (genrand (seedGen 14696322443088744485)).1 = 3285221831 := by decide

/-! ## The `random` module API used by the pipeline

`random.random`, `random.randint`, `random.sample` and `random.uniform` on
the global generator.  Each module-level call is one *draw* in the spec's
sense; the state `RState` additionally records the sequence of such calls,
so draw-order claims are about an intrinsic log, not a hand-written list.
`_randbelow_with_getrandbits`'s rejection loop gets an explicit fuel. -/

/-- Failures of the embedded `random` API: fuel exhaustion of the
(unbounded, probabilistically terminating) rejection loop, and
`random.sample`'s `ValueError` when the sample is larger than the
population. -/
inductive Err where
  | fuel : Err
  | badSample : Err
deriving DecidableEq

/-- One module-level draw, as recorded in the draw log. -/
inductive Draw where
  | rand : Draw
  | randint : Nat → Nat → Draw
  | sample : Nat → Draw
  | uniform : ℚ → ℚ → Draw
deriving DecidableEq

/-- Generator state plus the log of module-level draws made so far. -/
structure RState where
  g : Gen
  log : List Draw
deriving DecidableEq

/-- `random_random` from `_randommodule.c`, kept exact: the numerator `a`
of the dyadic rational `a / 2^53` returned by `random.random()`
(`(genrand()>>5) * 67108864 + (genrand()>>6)`). -/
def randA (g : Gen) : Nat × Gen :=
  let r1 := genrand g
  let r2 := genrand r1.2
  ((r1.1 >>> 5) * 67108864 + (r2.1 >>> 6), r2.2)

/-- 2^53 as a rational, the denominator of `random.random()`. -/
def TwoPow53 : ℚ := 9007199254740992

/-- `random.random()`: one logged draw; the value is returned as the exact
numerator over 2^53. -/
def apiRandom (s : RState) : Nat × RState :=
  let r := randA s.g
  (r.1, ⟨r.2, s.log ++ [Draw.rand]⟩)

/-- `random.getrandbits(k)` for `0 < k ≤ 32`: top `k` bits of one word. -/
def getrandbits (k : Nat) (g : Gen) : Nat × Gen :=
  let r := genrand g
  (r.1 >>> (32 - k), r.2)

/-- `Random._randbelow_with_getrandbits`: draw `bit_length n` bits and
reject until the value is `< n`.  The unbounded `while` loop is bounded by
explicit fuel. -/
def randbelow (n : Nat) : Nat → Gen → Except Err (Nat × Gen)
  | 0, _ => .error .fuel
  | fuel + 1, g =>
      let r := getrandbits (bitLength n) g
      if r.1 < n then .ok (r.1, r.2) else randbelow n fuel r.2

/-- `random.randint(lo, hi)` = `randrange(lo, hi+1)`:
`lo + _randbelow(hi + 1 - lo)`, one logged draw. -/
def apiRandint (lo hi fuel : Nat) (s : RState) : Except Err (Nat × RState) :=
  match randbelow (hi + 1 - lo) fuel s.g with
  | .error e => .error e
  | .ok (r, g) => .ok (lo + r, ⟨g, s.log ++ [Draw.randint lo hi]⟩)

/-- The pool loop of `random.sample` (the `n <= setsize` branch, which is
the one taken for the 5-entry catalogs): for each pick,
`j = _randbelow(n - i); result[i] = pool[j]; pool[j] = pool[n - i - 1]`. -/
def sampleAux : List String → Nat → Nat → Nat → Gen → Except Err (List String × Gen)
  | _, _, 0, _, g => .ok ([], g)
  | pool, n, k + 1, fuel, g =>
      match randbelow n fuel g with
      | .error e => .error e
      | .ok (j, g') =>
          match sampleAux (pool.set j (pool.getD (n - 1) "")) (n - 1) k fuel g' with
          | .error e => .error e
          | .ok (rest, g'') => .ok (pool.getD j "" :: rest, g'')

/-- `random.sample(population, k)`: guard `0 ≤ k ≤ n` (the `ValueError`
branch), then the pool loop; one logged draw. -/
def apiSample (pool : List String) (k fuel : Nat) (s : RState) :
    Except Err (List String × RState) :=
  if k ≤ pool.length then
    match sampleAux pool pool.length k fuel s.g with
    | .error e => .error e
    | .ok (res, g) => .ok (res, ⟨g, s.log ++ [Draw.sample k]⟩)
  else .error .badSample

/-- `random.uniform(a, b) = a + (b - a) * random()`, one logged draw. -/
def apiUniform (lo hi : ℚ) (s : RState) : ℚ × RState :=
  let r := randA s.g
  (lo + (hi - lo) * ((r.1 : ℚ) / TwoPow53), ⟨r.2, s.log ++ [Draw.uniform lo hi]⟩)

/-! ## Python's `round` on exact rationals -/

/-- Floor of a rational as an integer (`Int.fdiv` is floor division). -/
def qfloor (q : ℚ) : ℤ := q.num.fdiv q.den

/-- Round to the nearest integer, ties to even — the rounding Python's
`round` applies. -/
def rndHalfEven (q : ℚ) : ℤ :=
  let f := qfloor q
  if q - (f : ℚ) < 1 / 2 then f
  else if (1 : ℚ) / 2 < q - (f : ℚ) then f + 1
  else if f % 2 = 0 then f else f + 1

/-- Python's `round(q, d)` on the exact rational value. -/
def pyRound (q : ℚ) (d : Nat) : ℚ := (rndHalfEven (q * 10 ^ d) : ℚ) / 10 ^ d

/-! ## SHA-256 (`hashlib.sha256`)

Byte strings are packed big-endian into a `Nat`; the working arrays (the
message schedule and the eight working variables) are packed `uint32`
arrays as above. -/

/-- Pack a list of 32-bit words into a `Nat`, word `i` at bits `32*i`. -/
def wordsOfList (l : List Nat) : Nat :=
  l.foldr (fun x acc => (acc <<< 32) + x % U32) 0

/-- The SHA-256 round constants. -/
def shaK : Nat := wordsOfList
  [1116352408, 1899447441, 3049323471, 3921009573, 961987163, 1508970993,
   2453635748, 2870763221, 3624381080, 310598401, 607225278, 1426881987,
   1925078388, 2162078206, 2614888103, 3248222580, 3835390401, 4022224774,
   264347078, 604807628, 770255983, 1249150122, 1555081692, 1996064986,
   2554220882, 2821834349, 2952996808, 3210313671, 3336571891, 3584528711,
   113926993, 338241895, 666307205, 773529912, 1294757372, 1396182291,
   1695183700, 1986661051, 2177026350, 2456956037, 2730485921, 2820302411,
   3259730800, 3345764771, 3516065817, 3600352804, 4094571909, 275423344,
   430227734, 506948616, 659060556, 883997877, 958139571, 1322822218,
   1537002063, 1747873779, 1955562222, 2024104815, 2227730452, 2361852424,
   2428436474, 2756734187, 3204031479, 3329325298]

/-- The SHA-256 initial hash value. -/
def shaH0 : Nat := wordsOfList
  [1779033703, 3144134277, 1013904242, 2773480762, 1359893119, 2600822924,
   528734635, 1541459225]

/-- Rotate a 32-bit word right by `n`. -/
def rotr (n x : Nat) : Nat := ((x >>> n) ||| (x <<< (32 - n))) % U32

/-- Bitwise complement within 32 bits. -/
def not32 (x : Nat) : Nat := (x % U32) ^^^ (U32 - 1)

/-- SHA-256 `Ch`. -/
def chf (x y z : Nat) : Nat := (x &&& y) ^^^ (not32 x &&& z)

/-- SHA-256 `Maj`. -/
def maj (x y z : Nat) : Nat := (x &&& y) ^^^ (x &&& z) ^^^ (y &&& z)

/-- SHA-256 `Σ0`. -/
def bsig0 (x : Nat) : Nat := rotr 2 x ^^^ rotr 13 x ^^^ rotr 22 x

/-- SHA-256 `Σ1`. -/
def bsig1 (x : Nat) : Nat := rotr 6 x ^^^ rotr 11 x ^^^ rotr 25 x

/-- SHA-256 `σ0`. -/
def ssig0 (x : Nat) : Nat := rotr 7 x ^^^ rotr 18 x ^^^ (x >>> 3)

/-- SHA-256 `σ1`. -/
def ssig1 (x : Nat) : Nat := rotr 17 x ^^^ rotr 19 x ^^^ (x >>> 10)

/-- Pack a byte string big-endian into a `Nat` (accumulator-passing, with
the accumulator forced so concrete runs reduce iteratively). -/
def packBytesBE : List Nat → Nat → Nat
  | [], acc => acc
  | b :: l, acc =>
      Nat.casesOn (motive := fun _ => Nat) (acc * 256 + b % 256)
        (packBytesBE l 0) (fun m => packBytesBE l (m + 1))

theorem packBytesBE_cons (b : Nat) (l : List Nat) (acc : Nat) :
    packBytesBE (b :: l) acc = packBytesBE l (acc * 256 + b % 256) := by
  show Nat.casesOn (motive := fun _ => Nat) _ _ _ = _
  cases h : acc * 256 + b % 256 <;> simp [h]

/-- SHA-256 padding, on the packed message: append `0x80`, then zeros to
56 mod 64 bytes, then the bit length as 8 big-endian bytes. -/
def shaPadded (m len : Nat) : Nat :=
  let z := (119 - len % 64) % 64
  (((m <<< 8) + 128) <<< (8 * (z + 8))) + 8 * len

/-- Number of 64-byte blocks of the padded message. -/
def numBlocks (len : Nat) : Nat := (len + 9 + (119 - len % 64) % 64) / 64

/-- Block `t` (from the front) of the padded message, as a 512-bit chunk. -/
def blockAt (padded nb t : Nat) : Nat :=
  (padded >>> (512 * (nb - 1 - t))) % (2 ^ 512)

/-- Load the 16 message words of a block into the packed schedule
(word `t` of the schedule is byte-big-endian word `t` of the block).
State: `P = W * 2^32 + t`. -/
def schedLoadStep (block P : Nat) : Nat :=
  let t := P % U32
  let W := P >>> 32
  ((W + (((block >>> (32 * (15 - t))) % U32) <<< (32 * t))) <<< 32) + (t + 1)

/-- Extend the schedule: `W[t] = σ1 W[t-2] + W[t-7] + σ0 W[t-15] + W[t-16]`.
State: `P = W * 2^32 + t`, `t` running from 16 to 63. -/
def schedExtStep (P : Nat) : Nat :=
  let t := P % U32
  let W := P >>> 32
  let v := ssig1 (wget W (t - 2)) + wget W (t - 7) + ssig0 (wget W (t - 15)) +
    wget W (t - 16)
  ((W + ((v % U32) <<< (32 * t))) <<< 32) + (t + 1)

/-- The full 64-word message schedule of a block. -/
def schedule (block : Nat) : Nat :=
  let W16 := natIter (schedLoadStep block) 16 0
  (natIter schedExtStep 48 W16) >>> 32

/-- One SHA-256 round.  State: working variables `a..h` packed as words
`0..7`, above the round index: `P = S * 2^32 + t`. -/
def roundStep (W P : Nat) : Nat :=
  let t := P % U32
  let S := P >>> 32
  let t1 := wget S 7 + bsig1 (wget S 4) + chf (wget S 4) (wget S 5) (wget S 6) +
    wget shaK t + wget W t
  let t2 := bsig0 (wget S 0) + maj (wget S 0) (wget S 1) (wget S 2)
  let S1 := (S % (2 ^ 224)) <<< 32
  let S2 := wset S1 0 (t1 + t2)
  ((wset S2 4 (wget S1 4 + t1)) <<< 32) + (t + 1)

/-- Word-wise 32-bit addition of two packed 8-word states. -/
def addWords8 (x y : Nat) : Nat := wordsOfList
  [wget x 0 + wget y 0, wget x 1 + wget y 1, wget x 2 + wget y 2,
   wget x 3 + wget y 3, wget x 4 + wget y 4, wget x 5 + wget y 5,
   wget x 6 + wget y 6, wget x 7 + wget y 7]

/-- SHA-256 compression of one block into the hash state. -/
def compress (hv block : Nat) : Nat :=
  let W := schedule block
  let S := (natIter (roundStep W) 64 (hv <<< 32)) >>> 32
  addWords8 hv S

/-- The SHA-256 hash state after digesting a packed message of `len`
bytes: words `0..7` are the big-endian digest words `H0..H7`. -/
def sha256pre (m len : Nat) : Nat :=
  let padded := shaPadded m len
  let nb := numBlocks len
  (natIter
    (fun P =>
      let t := P % U32
      ((compress (P >>> 32) (blockAt padded nb t)) <<< 32) + (t + 1))
    nb ((shaH0 <<< 32) + 0)) >>> 32

/-- `int(hashlib.sha256(b).hexdigest()[:16], 16)`: the first 16 hex digits
of the digest, i.e. the first two big-endian digest words. -/
def hashValue (b : List Nat) : Nat :=
  let hv := sha256pre (packBytesBE b 0) b.length
  (wget hv 0) * U32 + wget hv 1

/-- SHA-256 test vector: the empty message. -/
theorem hashValue_empty : hashValue [] = 16406829232824261652 := by decide
/-- SHA-256 test vector: the message abc. -/
theorem hashValue_abc : hashValue [97, 98, 99] = 13436514500253700074 := by decide
/-- The fingerprint seed of the payload `ff fb 31 37 37 31`. -/
theorem hashValue_cex : hashValue [255, 251, 49, 55, 55, 49] = 14696322443088744485 := by decide

/-! ## Data model of the detection service -/

/-- The closed set of language tags admitted by the pydantic `Literal`. -/
inductive Language where
  | tamil | english | hindi | malayalam | telugu
deriving DecidableEq

/-- `SUPPORTED_LANGUAGES` from both entry-point files. -/
def SUPPORTED_LANGUAGES : List Language :=
  [.tamil, .english, .hindi, .malayalam, .telugu]

/-- Python's `language.capitalize()` on the five possible tags. -/
def capTag : Language → String
  | .tamil => "Tamil"
  | .english => "English"
  | .hindi => "Hindi"
  | .malayalam => "Malayalam"
  | .telugu => "Telugu"

/-- The two classification labels. -/
inductive Label where
  | AI_GENERATED | HUMAN
deriving DecidableEq

/-- The 5-entry indicator catalog used when the label is AI_GENERATED. -/
def ai_indicators : List String :=
  ["Unnatural pitch consistency detected",
   "Spectral anomalies in high-frequency range",
   "Irregular breathing pattern intervals",
   "Phase coherence artifacts present",
   "Prosody smoothness exceeds human baseline"]

/-- The 5-entry indicator catalog used when the label is HUMAN. -/
def human_indicators : List String :=
  ["Natural voice tremor patterns detected",
   "Organic breathing sounds present",
   "Micro-variations in pitch consistent with human speech",
   "Formant transitions show natural articulatory movement",
   "Background noise characteristics indicate real recording"]

/-- The `explanation` dict built by `mock_ai_detection`. -/
structure Explanation where
  primary_indicators : List String
  language_specific_analysis : String
  spectral_analysis : ℚ
  prosodic_features : ℚ
  artifact_detection : ℚ
deriving DecidableEq

/-- The triple returned by `mock_ai_detection`, together with the log of
module-level draws made while producing it. -/
structure DetectOut where
  classification : Label
  confidence : ℚ
  explanation : Explanation
  log : List Draw
deriving DecidableEq

namespace MainPy

/-- Core of `mock_ai_detection` in `src/main.py`, from the seed onward.
`g0` is the pre-existing state of the process-global generator, which
`random.seed(hash_value)` discards.  Note this variant samples a fixed
`k=3` indicators (`random.sample(indicators, k=3)`), with no count draw. -/
def mockCore (fuel hash_value : Nat) (language : Language) (g0 : Gen) :
    Except Err DetectOut :=
  let _ := g0
  let s : RState := ⟨seedGen hash_value, []⟩
  let d1 := apiRandom s
  let is_ai := (d1.1 : ℚ) / TwoPow53 < 6 / 10
  let classification := if is_ai then Label.AI_GENERATED else Label.HUMAN
  let d2 := apiRandom d1.2
  let confidence :=
    if is_ai then 75 / 100 + (d2.1 : ℚ) / TwoPow53 * (23 / 100)
    else 70 / 100 + (d2.1 : ℚ) / TwoPow53 * (25 / 100)
  let indicators := if is_ai then ai_indicators else human_indicators
  (apiSample indicators 3 fuel d2.2).map (fun ps =>
      let u1 := apiUniform (7 / 10) (95 / 100) ps.2
      let u2 := apiUniform (65 / 100) (92 / 100) u1.2
      let u3 := apiUniform (70 / 100) (98 / 100) u2.2
      { classification := classification
        confidence := pyRound confidence 4
        explanation :=
          { primary_indicators := ps.1
            language_specific_analysis :=
              capTag language ++ " phonetic patterns analyzed"
            spectral_analysis := pyRound u1.1 3
            prosodic_features := pyRound u2.1 3
            artifact_detection := pyRound u3.1 3 }
        log := u3.2.log })

/-- `mock_ai_detection` from `src/main.py`: fingerprint the payload
(SHA-256, first 16 hex digits as the seed) and run the seeded core. -/
def mock_ai_detection (fuel : Nat) (audio_bytes : List Nat)
    (language : Language) (g0 : Gen) : Except Err DetectOut :=
  mockCore fuel (hashValue audio_bytes) language g0

end MainPy

namespace MPy

/-- Core of `mock_ai_detection` in `src/m.py`, from the seed onward.  This
variant draws an indicator count first
(`random.sample(..., k=random.randint(2, 3))`). -/
def mockCore (fuel hash_value : Nat) (language : Language) (g0 : Gen) :
    Except Err DetectOut :=
  let _ := g0
  let s : RState := ⟨seedGen hash_value, []⟩
  let d1 := apiRandom s
  let is_ai := (d1.1 : ℚ) / TwoPow53 < 6 / 10
  let classification := if is_ai then Label.AI_GENERATED else Label.HUMAN
  let d2 := apiRandom d1.2
  let confidence :=
    if is_ai then 75 / 100 + (d2.1 : ℚ) / TwoPow53 * (23 / 100)
    else 70 / 100 + (d2.1 : ℚ) / TwoPow53 * (25 / 100)
  let indicators := if is_ai then ai_indicators else human_indicators
  (apiRandint 2 3 fuel d2.2).bind (fun ks =>
    (apiSample indicators ks.1 fuel ks.2).map (fun ps =>
      let u1 := apiUniform (7 / 10) (95 / 100) ps.2
      let u2 := apiUniform (65 / 100) (92 / 100) u1.2
      let u3 := apiUniform (70 / 100) (98 / 100) u2.2
      { classification := classification
        confidence := pyRound confidence 4
        explanation :=
          { primary_indicators := ps.1
            language_specific_analysis :=
              capTag language ++ " phonetic patterns analyzed"
            spectral_analysis := pyRound u1.1 3
            prosodic_features := pyRound u2.1 3
            artifact_detection := pyRound u3.1 3 }
        log := u3.2.log }))

/-- `mock_ai_detection` from `src/m.py`. -/
def mock_ai_detection (fuel : Nat) (audio_bytes : List Nat)
    (language : Language) (g0 : Gen) : Except Err DetectOut :=
  mockCore fuel (hashValue audio_bytes) language g0

end MPy

/-! ## `decode_audio` and the core of `detect_voice` (`src/main.py`)

The transport layer (base64 decoding, HTTP, the API-key check, which the
spec treats as an external collaborator) is outside the embedding; the
payload arrives as decoded bytes.  `processing_time_ms` is wall-clock
observation, not a function of the input, and is not modelled. -/

/-- Errors surfaced by the request handler. -/
inductive ApiErr where
  | unsupportedLanguage : ApiErr
  | badAudio : String → ApiErr
  | internal : Err → ApiErr
deriving DecidableEq

/-- `decode_audio` after the base64 step: the leading-bytes MP3 signature
check (`\xff\xfb` or `ID3`), and the duration estimate
`(len / 1024) / 16`. -/
def decode_audio (audio_bytes : List Nat) : Except String (List Nat × ℚ) :=
  if audio_bytes.take 2 = [255, 251] ∨ audio_bytes.take 3 = [73, 68, 51] then
    .ok (audio_bytes, (audio_bytes.length : ℚ) / 1024 / 16)
  else .error "Invalid MP3 format"

/-- The response body assembled by `detect_voice`. -/
structure DetectionResponse where
  classification : Label
  confidence : ℚ
  language : Language
  audio_duration_seconds : ℚ
  explanation : Explanation
deriving DecidableEq

/-- Assembly of the `DetectionResponse` literal at the end of
`detect_voice` (the spec's ResponseAssembler), factored out by the
detection outcome. -/
def assemble (language : Language) (duration : ℚ) :
    Except Err DetectOut → Except ApiErr DetectionResponse
  | .error e => .error (.internal e)
  | .ok out =>
      .ok { classification := out.classification
            confidence := out.confidence
            language := language
            audio_duration_seconds := pyRound duration 2
            explanation := out.explanation }

/-- The core of the `detect_voice` handler from `src/main.py`: language
check, decode and validate, detect, assemble. -/
def detect_voice (fuel : Nat) (audio_bytes : List Nat) (language : Language)
    (g0 : Gen) : Except ApiErr DetectionResponse :=
  if SUPPORTED_LANGUAGES.contains language = false then .error .unsupportedLanguage
  else
    match decode_audio audio_bytes with
    | .error msg => .error (.badAudio ("Invalid audio data: " ++ msg))
    | .ok (bytes, duration) =>
        assemble language duration (MainPy.mock_ai_detection fuel bytes language g0)

/-- A throwaway pre-existing global generator state, for concrete runs. -/
def g₀ : Gen := ⟨0, 624⟩

/-- Concrete run of the pipeline on the payload `ff fb 31 37 37 31`. -/
theorem mock_cex_eval :
    (MainPy.mock_ai_detection 60 [255, 251, 49, 55, 55, 49] .english g₀).map
      (fun o => (o.classification, o.confidence)) =
    .ok (Label.HUMAN, 19 / 20) := by decide

/-! ## The spec's fixed reference payload: a valid 2-byte signature followed
by 1600 zero bytes -/

/-- The golden-regression payload from the spec. -/
def goldenBytes : List Nat := 255 :: 251 :: List.replicate 1600 0

theorem packBytesBE_replicate_zero (n acc : Nat) :
    packBytesBE (List.replicate n 0) acc = acc * 256 ^ n := by
  induction n generalizing acc with
  | zero => simp [packBytesBE]
  | succ m ih =>
      rw [List.replicate_succ, packBytesBE_cons, ih]
      ring

theorem packBytesBE_golden : packBytesBE goldenBytes 0 = 65531 * 256 ^ 1600 := by
  rw [goldenBytes, packBytesBE_cons, packBytesBE_cons, packBytesBE_replicate_zero]

theorem length_golden : goldenBytes.length = 1602 := by
  rw [goldenBytes]
  simp only [List.length_cons, List.length_replicate]

/-- The fingerprint seed of the reference payload
(`int(sha256(b"\xff\xfb" + 1600 * b"\x00").hexdigest()[:16], 16)`). -/
theorem hashValue_golden : hashValue goldenBytes = 426107664488648074 := by
  simp only [hashValue, packBytesBE_golden, length_golden]
  decide

/-- Concrete run of the `src/main.py` core on the reference seed. -/
theorem mockCore_golden_eval_main :
    (MainPy.mockCore 60 426107664488648074 .english g₀).map
      (fun o => (o.classification, o.confidence, o.explanation.primary_indicators)) =
    .ok (Label.AI_GENERATED, 1883 / 2000,
      ["Irregular breathing pattern intervals",
       "Unnatural pitch consistency detected",
       "Prosody smoothness exceeds human baseline"]) := by decide

/-- Concrete run of the `src/m.py` core on the reference seed. -/
theorem mockCore_golden_eval_m :
    (MPy.mockCore 60 426107664488648074 .english g₀).map
      (fun o => (o.classification, o.confidence, o.explanation.primary_indicators)) =
    .ok (Label.AI_GENERATED, 1883 / 2000,
      ["Unnatural pitch consistency detected",
       "Phase coherence artifacts present",
       "Prosody smoothness exceeds human baseline"]) := by decide

/-! ## Support lemmas: bounds on the generator's draws -/

theorem wget_lt_U32 (v i : Nat) : wget v i < U32 :=
  Nat.mod_lt _ (by norm_num [U32])

theorem temper_lt {y : Nat} (h : y < U32) : temper y < U32 := by
  have h32 : U32 = 2 ^ 32 := by norm_num [U32]
  rw [h32] at h ⊢
  simp only [temper]
  have sr : ∀ z k : Nat, z < 2 ^ 32 → z >>> k < 2 ^ 32 := fun z k hz => by
    rw [Nat.shiftRight_eq_div_pow]
    exact lt_of_le_of_lt (Nat.div_le_self _ _) hz
  have a1 : ∀ z : Nat, (z <<< 7) &&& 2636928640 < 2 ^ 32 := fun z =>
    lt_of_le_of_lt (Nat.and_le_right) (by norm_num)
  have a2 : ∀ z : Nat, (z <<< 15) &&& 4022730752 < 2 ^ 32 := fun z =>
    lt_of_le_of_lt (Nat.and_le_right) (by norm_num)
  have h1 : y ^^^ y >>> 11 < 2 ^ 32 := Nat.xor_lt_two_pow h (sr y 11 h)
  generalize hg1 : y ^^^ y >>> 11 = y1 at h1 ⊢
  have h2 : y1 ^^^ y1 <<< 7 &&& 2636928640 < 2 ^ 32 := Nat.xor_lt_two_pow h1 (a1 y1)
  generalize hg2 : y1 ^^^ y1 <<< 7 &&& 2636928640 = y2 at h2 ⊢
  have h3 : y2 ^^^ y2 <<< 15 &&& 4022730752 < 2 ^ 32 := Nat.xor_lt_two_pow h2 (a2 y2)
  generalize hg3 : y2 ^^^ y2 <<< 15 &&& 4022730752 = y3 at h3 ⊢
  exact Nat.xor_lt_two_pow h3 (sr y3 18 h3)

theorem genrand_fst_lt (g : Gen) : (genrand g).1 < U32 := by
  unfold genrand
  split <;> exact temper_lt (wget_lt_U32 _ _)

theorem randA_fst_lt (g : Gen) : (randA g).1 < 2 ^ 53 := by
  unfold randA
  have h1 : (genrand g).1 >>> 5 < 2 ^ 27 := by
    have := genrand_fst_lt g
    rw [Nat.shiftRight_eq_div_pow]
    refine Nat.div_lt_of_lt_mul ?_
    norm_num [U32] at this ⊢
    omega
  have h2 : (genrand (genrand g).2).1 >>> 6 < 2 ^ 26 := by
    have := genrand_fst_lt (genrand g).2
    rw [Nat.shiftRight_eq_div_pow]
    refine Nat.div_lt_of_lt_mul ?_
    norm_num [U32] at this ⊢
    omega
  norm_num at h1 h2 ⊢
  omega

theorem TwoPow53_pos : (0 : ℚ) < TwoPow53 := by norm_num [TwoPow53]

theorem randA_q_nonneg (g : Gen) : 0 ≤ ((randA g).1 : ℚ) / TwoPow53 :=
  div_nonneg (by positivity) TwoPow53_pos.le

theorem randA_q_lt_one (g : Gen) : ((randA g).1 : ℚ) / TwoPow53 < 1 := by
  rw [div_lt_one (by norm_num [TwoPow53])]
  have := randA_fst_lt g
  have : ((randA g).1 : ℚ) < ((2 ^ 53 : Nat) : ℚ) := by exact_mod_cast this
  simpa [TwoPow53] using this

theorem randbelow_ok_lt {n : Nat} :
    ∀ {fuel : Nat} {g g' : Gen} {j : Nat},
      randbelow n fuel g = .ok (j, g') → j < n := by
  intro fuel
  induction fuel with
  | zero => intro g g' j h; exact absurd h (by simp [randbelow])
  | succ f ih =>
      intro g g' j h
      simp only [randbelow] at h
      split at h
      · rename_i hlt
        cases h
        exact hlt
      · exact ih h

/-! ## Support lemmas: rounding -/

theorem qfloor_eq_floor (q : ℚ) : qfloor q = ⌊q⌋ := by
  rw [Rat.floor_def, qfloor, Int.fdiv_eq_ediv _ (by positivity)]

theorem floor_le_rndHalfEven (q : ℚ) : ⌊q⌋ ≤ rndHalfEven q := by
  simp only [rndHalfEven, qfloor_eq_floor]
  split
  · exact le_refl _
  · split
    · omega
    · split <;> omega

theorem rndHalfEven_le_floor_add_one (q : ℚ) : rndHalfEven q ≤ ⌊q⌋ + 1 := by
  simp only [rndHalfEven, qfloor_eq_floor]
  split
  · omega
  · split
    · omega
    · split <;> omega

theorem le_pyRound {m : ℤ} {q : ℚ} {d : Nat} (h : (m : ℚ) ≤ q * 10 ^ d) :
    (m : ℚ) / 10 ^ d ≤ pyRound q d := by
  have h1 : m ≤ ⌊q * 10 ^ d⌋ := Int.le_floor.2 h
  have h2 : (m : ℚ) ≤ ((rndHalfEven (q * 10 ^ d) : ℤ) : ℚ) := by
    exact_mod_cast le_trans h1 (floor_le_rndHalfEven _)
  unfold pyRound
  gcongr

theorem pyRound_le {m : ℤ} {q : ℚ} {d : Nat} (h : q * 10 ^ d < (m : ℚ)) :
    pyRound q d ≤ (m : ℚ) / 10 ^ d := by
  have h1 : ⌊q * 10 ^ d⌋ < m := Int.floor_lt.2 h
  have h2 : ((rndHalfEven (q * 10 ^ d) : ℤ) : ℚ) ≤ (m : ℚ) := by
    have := rndHalfEven_le_floor_add_one (q * 10 ^ d)
    exact_mod_cast le_trans this (by omega)
  unfold pyRound
  gcongr

/-- Both endpoints at once: if `lo ≤ q·10^d < hi` then
`lo/10^d ≤ round(q, d) ≤ hi/10^d`. -/
theorem pyRound_mem {lo hi : ℤ} {q : ℚ} {d : Nat}
    (h1 : (lo : ℚ) ≤ q * 10 ^ d) (h2 : q * 10 ^ d < (hi : ℚ)) :
    (lo : ℚ) / 10 ^ d ≤ pyRound q d ∧ pyRound q d ≤ (hi : ℚ) / 10 ^ d :=
  ⟨le_pyRound h1, pyRound_le h2⟩

/-! ## Support lemmas: `random.sample`'s pool algorithm -/

/-- The pure pool algorithm of `random.sample`, as a function of the list
of chosen indices: pick `pool[j]`, move `pool[n-1]` into the vacancy,
recurse on the shrunk active pool. -/
def poolPick : List String → Nat → List Nat → List String
  | _, _, [] => []
  | pool, n, j :: js =>
      pool.getD j "" :: poolPick (pool.set j (pool.getD (n - 1) "")) (n - 1) js

/-- The `i`-th chosen index is `< n - i`, as guaranteed by `_randbelow`. -/
def idxBounded : Nat → List Nat → Prop
  | _, [] => True
  | n, j :: js => j < n ∧ idxBounded (n - 1) js

theorem randbelow_err {n : Nat} :
    ∀ {fuel : Nat} {g : Gen} {e : Err}, randbelow n fuel g = .error e → e = .fuel := by
  intro fuel
  induction fuel with
  | zero =>
      intro g e h
      simp only [randbelow] at h
      cases h
      rfl
  | succ f ih =>
      intro g e h
      simp only [randbelow] at h
      split at h
      · cases h
      · exact ih h

theorem sampleAux_poolPick :
    ∀ {k : Nat} {pool : List String} {n fuel : Nat} {g : Gen}
      {res : List String} {g' : Gen},
      sampleAux pool n k fuel g = .ok (res, g') →
      ∃ js, res = poolPick pool n js ∧ js.length = k ∧ idxBounded n js := by
  intro k
  induction k with
  | zero =>
      intro pool n fuel g res g' h
      simp only [sampleAux] at h
      cases h
      exact ⟨[], rfl, rfl, trivial⟩
  | succ m ih =>
      intro pool n fuel g res g' h
      simp only [sampleAux] at h
      cases hr : randbelow n fuel g with
      | error e => simp only [hr] at h; exact Except.noConfusion h
      | ok p =>
          obtain ⟨j, g1⟩ := p
          simp only [hr] at h
          cases hs : sampleAux (pool.set j (pool.getD (n - 1) "")) (n - 1) m fuel g1 with
          | error e => simp only [hs] at h; exact Except.noConfusion h
          | ok q =>
              obtain ⟨rest, g2⟩ := q
              simp only [hs] at h
              cases h
              obtain ⟨js, h1, h2, h3⟩ := ih hs
              exact ⟨j :: js, by simp [poolPick, h1], by simp [h2],
                randbelow_ok_lt hr, h3⟩

theorem sampleAux_no_badSample :
    ∀ {k : Nat} {pool : List String} {n fuel : Nat} {g : Gen},
      sampleAux pool n k fuel g ≠ .error .badSample := by
  intro k
  induction k with
  | zero =>
      intro pool n fuel g h
      simp [sampleAux] at h
  | succ m ih =>
      intro pool n fuel g h
      simp only [sampleAux] at h
      cases hr : randbelow n fuel g with
      | error e =>
          simp only [hr] at h
          cases h
          cases randbelow_err hr
      | ok p =>
          obtain ⟨j, g1⟩ := p
          simp only [hr] at h
          cases hs : sampleAux (pool.set j (pool.getD (n - 1) "")) (n - 1) m fuel g1 with
          | error e =>
              simp only [hs] at h
              cases h
              exact ih hs
          | ok q =>
              obtain ⟨rest, g2⟩ := q
              simp only [hs] at h
              cases h

theorem poolPick_length (js : List Nat) :
    ∀ (pool : List String) (n : Nat), (poolPick pool n js).length = js.length := by
  induction js with
  | nil => intro pool n; rfl
  | cons j js ih => intro pool n; simp [poolPick, ih]

/-- All 5·4·3 index choices: a 3-element sample from the AI catalog is
duplicate-free and drawn from the catalog. -/
theorem aiPick3_ok : ∀ j1, j1 < 5 → ∀ j2, j2 < 4 → ∀ j3, j3 < 3 →
    (poolPick ai_indicators 5 [j1, j2, j3]).Nodup ∧
      ∀ x ∈ poolPick ai_indicators 5 [j1, j2, j3], x ∈ ai_indicators := by decide

/-- All 5·4 index choices: a 2-element sample from the AI catalog is
duplicate-free and drawn from the catalog. -/
theorem aiPick2_ok : ∀ j1, j1 < 5 → ∀ j2, j2 < 4 →
    (poolPick ai_indicators 5 [j1, j2]).Nodup ∧
      ∀ x ∈ poolPick ai_indicators 5 [j1, j2], x ∈ ai_indicators := by decide

/-- All 5·4·3 index choices for the human catalog. -/
theorem huPick3_ok : ∀ j1, j1 < 5 → ∀ j2, j2 < 4 → ∀ j3, j3 < 3 →
    (poolPick human_indicators 5 [j1, j2, j3]).Nodup ∧
      ∀ x ∈ poolPick human_indicators 5 [j1, j2, j3], x ∈ human_indicators := by decide

/-- All 5·4 index choices for the human catalog. -/
theorem huPick2_ok : ∀ j1, j1 < 5 → ∀ j2, j2 < 4 →
    (poolPick human_indicators 5 [j1, j2]).Nodup ∧
      ∀ x ∈ poolPick human_indicators 5 [j1, j2], x ∈ human_indicators := by decide

/-! ## Support lemmas: the logged API wrappers -/

theorem apiRandom_fst (s : RState) : (apiRandom s).1 = (randA s.g).1 := rfl

theorem apiRandom_g (s : RState) : (apiRandom s).2.g = (randA s.g).2 := rfl

theorem apiRandom_log (s : RState) : (apiRandom s).2.log = s.log ++ [Draw.rand] := rfl

theorem apiUniform_fst (lo hi : ℚ) (s : RState) :
    (apiUniform lo hi s).1 = lo + (hi - lo) * (((randA s.g).1 : ℚ) / TwoPow53) := rfl

theorem apiUniform_g (lo hi : ℚ) (s : RState) :
    (apiUniform lo hi s).2.g = (randA s.g).2 := rfl

theorem apiUniform_log (lo hi : ℚ) (s : RState) :
    (apiUniform lo hi s).2.log = s.log ++ [Draw.uniform lo hi] := rfl

theorem apiSample_ok {pool : List String} {k fuel : Nat} {s : RState}
    {res : List String} {s' : RState}
    (h : apiSample pool k fuel s = .ok (res, s')) :
    sampleAux pool pool.length k fuel s.g = .ok (res, s'.g) ∧
      s'.log = s.log ++ [Draw.sample k] := by
  simp only [apiSample] at h
  split at h
  · cases hs : sampleAux pool pool.length k fuel s.g with
    | error e => simp only [hs] at h; exact Except.noConfusion h
    | ok q =>
        obtain ⟨r2, g2⟩ := q
        simp only [hs] at h
        cases h
        exact ⟨rfl, rfl⟩
  · exact Except.noConfusion h

theorem apiRandint23_ok {fuel : Nat} {s : RState} {k : Nat} {s' : RState}
    (h : apiRandint 2 3 fuel s = .ok (k, s')) :
    (k = 2 ∨ k = 3) ∧ s'.log = s.log ++ [Draw.randint 2 3] := by
  simp only [apiRandint] at h
  cases hr : randbelow (3 + 1 - 2) fuel s.g with
  | error e => rw [hr] at h; exact Except.noConfusion h
  | ok p =>
      obtain ⟨r, g1⟩ := p
      rw [hr] at h
      cases h
      have := randbelow_ok_lt hr
      exact ⟨by omega, rfl⟩

/-! ## Support lemmas: rounded affine draws stay in their band -/

theorem round_affine_band {b c x : ℚ} {d : Nat} {L H : ℤ}
    (h0 : 0 ≤ x) (h1 : x < 1)
    (hL : (L : ℚ) = b * 10 ^ d) (hH : (H : ℚ) = (b + c) * 10 ^ d)
    (hc : 0 < c) :
    b ≤ pyRound (b + x * c) d ∧ pyRound (b + x * c) d ≤ b + c := by
  have hp : (0 : ℚ) < 10 ^ d := by positivity
  have hb1 : (L : ℚ) ≤ (b + x * c) * 10 ^ d := by
    rw [hL]
    have : 0 ≤ x * c := mul_nonneg h0 hc.le
    nlinarith
  have hb2 : (b + x * c) * 10 ^ d < (H : ℚ) := by
    rw [hH]
    have : x * c < c := by nlinarith
    nlinarith
  obtain ⟨ha, hb⟩ := pyRound_mem hb1 hb2
  constructor
  · calc b = (L : ℚ) / 10 ^ d := by rw [hL]; field_simp
      _ ≤ _ := ha
  · calc pyRound (b + x * c) d ≤ (H : ℚ) / 10 ^ d := hb
      _ = b + c := by rw [hH]; field_simp

/-! ## Claim-level predicates -/

/-- `P` holds of the result whenever the run succeeds. -/
def onOk (P : DetectOut → Prop) : Except Err DetectOut → Prop
  | .ok o => P o
  | .error _ => True

/-! ## C1 — determinism -/

/-- C1: The pipeline is a deterministic function of the payload bytes and
the language.  The only state outside the request that the code touches is
the process-global generator, and `random.seed(hash_value)` overwrites it;
formally, both `mock_ai_detection` functions return identical results for
identical `(B, L)` whatever the pre-existing generator state, so repeated
runs agree bit for bit across runs and processes. -/
theorem C1_determinism (fuel : Nat) (b : List Nat) (l : Language) (σ₁ σ₂ : Gen) :
    MainPy.mock_ai_detection fuel b l σ₁ = MainPy.mock_ai_detection fuel b l σ₂ ∧
      MPy.mock_ai_detection fuel b l σ₁ = MPy.mock_ai_detection fuel b l σ₂ :=
  ⟨rfl, rfl⟩

/-! ## C7 — rejection of unrecognized signatures -/

/-- C7: a decoded payload that does not begin with the MP3 markers
`\xff\xfb` or `ID3` fails `decode_audio` with the format error, and
`detect_voice` surfaces it as the client-input error, producing no
classification, confidence or explanation for the request. -/
theorem C7_rejection (fuel : Nat) (b : List Nat) (l : Language) (σ : Gen)
    (h : ¬(b.take 2 = [255, 251] ∨ b.take 3 = [73, 68, 51])) :
    decode_audio b = .error "Invalid MP3 format" ∧
      detect_voice fuel b l σ =
        .error (.badAudio ("Invalid audio data: " ++ "Invalid MP3 format")) := by
  have hd : decode_audio b = .error "Invalid MP3 format" := by
    simp only [decode_audio, if_neg h]
  have hsup : SUPPORTED_LANGUAGES.contains l = true := by cases l <;> rfl
  refine ⟨hd, ?_⟩
  simp only [detect_voice, hsup, hd]
  rfl

theorem C7_witness :
    (¬(([0, 1, 2] : List Nat).take 2 = [255, 251] ∨
        ([0, 1, 2] : List Nat).take 3 = [73, 68, 51])) ∧
      decode_audio [0, 1, 2] = .error "Invalid MP3 format" :=
  ⟨by decide, (C7_rejection 1 [0, 1, 2] .english g₀ (by decide)).1⟩

/-! ## C8 — estimated duration -/

/-- A 16 KiB payload with a valid signature prefix. -/
def payload16k : List Nat := 255 :: 251 :: List.replicate 16382 0

/-- On a payload accepted by `decode_audio`, `detect_voice` is the
response assembly around `mock_ai_detection`. -/
theorem detect_voice_valid (fuel : Nat) (b : List Nat) (l : Language) (σ : Gen)
    (hd : decode_audio b = .ok (b, (b.length : ℚ) / 1024 / 16)) :
    detect_voice fuel b l σ =
      assemble l ((b.length : ℚ) / 1024 / 16) (MainPy.mock_ai_detection fuel b l σ) := by
  have hsup : SUPPORTED_LANGUAGES.contains l = true := by cases l <;> rfl
  rw [detect_voice, hsup, if_neg (by decide : ¬(true = false)), hd]

/-- C8: `decode_audio` always estimates the duration as
`(byte length / 1024) / 16` seconds, and a 16384-byte payload with a valid
signature prefix yields exactly `1.00` in the response's
`audio_duration_seconds` field (whenever a response is produced). -/
theorem C8_duration :
    (∀ b : List Nat, (decode_audio b).isOk = true →
        decode_audio b = .ok (b, (b.length : ℚ) / 1024 / 16)) ∧
      (∀ (fuel : Nat) (b : List Nat) (l : Language) (σ : Gen),
        b.take 2 = [255, 251] → b.length = 16384 →
        (detect_voice fuel b l σ).map (fun r => r.audio_duration_seconds) =
          (detect_voice fuel b l σ).map (fun _ => (1 : ℚ))) := by
  constructor
  · intro b hb
    simp only [decode_audio] at hb ⊢
    split at hb
    · split
      · rfl
      · simp_all
    · simp [Except.isOk, Except.toBool] at hb
  · intro fuel b l σ htake hlen
    have hd : decode_audio b = .ok (b, (b.length : ℚ) / 1024 / 16) := by
      simp only [decode_audio, if_pos (Or.inl htake)]
    have hsup : SUPPORTED_LANGUAGES.contains l = true := by cases l <;> rfl
    have hdur : pyRound ((b.length : ℚ) / 1024 / 16) 2 = 1 := by
      rw [hlen]
      norm_num
      decide
    rw [detect_voice_valid fuel b l σ hd]
    cases hm : MainPy.mock_ai_detection fuel b l σ with
    | error e => rfl
    | ok o =>
        simp only [assemble, Except.map]
        rw [hdur]

theorem C8_witness :
    ((decode_audio [255, 251]).isOk = true ∧
        decode_audio [255, 251] = .ok ([255, 251], (([255, 251] : List Nat).length : ℚ) / 1024 / 16)) ∧
      payload16k.take 2 = [255, 251] ∧ payload16k.length = 16384 ∧
        (detect_voice 60 payload16k .english g₀).map (fun r => r.audio_duration_seconds) =
          (detect_voice 60 payload16k .english g₀).map (fun _ => (1 : ℚ)) :=
  ⟨⟨by decide, C8_duration.1 [255, 251] (by decide)⟩,
    by decide,
    by rw [payload16k]; simp only [List.length_cons, List.length_replicate],
    C8_duration.2 60 payload16k .english g₀ (by decide)
      (by rw [payload16k]; simp only [List.length_cons, List.length_replicate])⟩

/-! ## Characterization of the classification phase -/

/-- The first `random.random()` draw of `mock_ai_detection` (as the exact
numerator over 2^53), as a function of the seed. -/
def draw1 (n : Nat) : Nat := (randA (seedGen n)).1

/-- The second `random.random()` draw. -/
def draw2 (n : Nat) : Nat := (randA (randA (seedGen n)).2).1

/-- The confidence value before rounding, per the source formulas. -/
def specConfidence (n : Nat) : ℚ :=
  if (draw1 n : ℚ) / TwoPow53 < 6 / 10
  then 75 / 100 + (draw2 n : ℚ) / TwoPow53 * (23 / 100)
  else 70 / 100 + (draw2 n : ℚ) / TwoPow53 * (25 / 100)

/-- On every successful run of `src/main.py`'s core, the label is
AI_GENERATED iff the first draw is below 0.6, and the confidence is the
rounded affine function of the second draw. -/
theorem MainPy.classify_main (fuel n : Nat) (l : Language) (σ : Gen) :
    onOk (fun o =>
        (o.classification = Label.AI_GENERATED ↔ (draw1 n : ℚ) / TwoPow53 < 6 / 10) ∧
          o.confidence = pyRound (specConfidence n) 4)
      (MainPy.mockCore fuel n l σ) := by
  simp only [MainPy.mockCore, apiRandom_fst, apiRandom_g]
  by_cases hc : ((randA (seedGen n)).1 : ℚ) / TwoPow53 < 6 / 10
  · simp only [if_pos hc]
    cases hs : apiSample ai_indicators 3 fuel
        (apiRandom (apiRandom ⟨seedGen n, []⟩).2).2 with
    | error e => simp only [hs, Except.map]; exact trivial
    | ok ps =>
        simp only [hs, Except.map]
        exact ⟨⟨fun _ => hc, fun _ => rfl⟩,
          by simp only [specConfidence, draw1, draw2, if_pos hc]⟩
  · simp only [if_neg hc]
    cases hs : apiSample human_indicators 3 fuel
        (apiRandom (apiRandom ⟨seedGen n, []⟩).2).2 with
    | error e => simp only [hs, Except.map]; exact trivial
    | ok ps =>
        simp only [hs, Except.map]
        exact ⟨⟨fun h => Label.noConfusion h, fun h => absurd h hc⟩,
          by simp only [specConfidence, draw1, draw2, if_neg hc]⟩

/-- Same characterization for `src/m.py`'s core. -/
theorem MPy.classify_m (fuel n : Nat) (l : Language) (σ : Gen) :
    onOk (fun o =>
        (o.classification = Label.AI_GENERATED ↔ (draw1 n : ℚ) / TwoPow53 < 6 / 10) ∧
          o.confidence = pyRound (specConfidence n) 4)
      (MPy.mockCore fuel n l σ) := by
  simp only [MPy.mockCore, apiRandom_fst, apiRandom_g]
  by_cases hc : ((randA (seedGen n)).1 : ℚ) / TwoPow53 < 6 / 10
  · simp only [if_pos hc]
    cases hk : apiRandint 2 3 fuel (apiRandom (apiRandom ⟨seedGen n, []⟩).2).2 with
    | error e => simp only [hk, Except.bind]; exact trivial
    | ok ks =>
        simp only [hk, Except.bind]
        cases hs : apiSample ai_indicators ks.1 fuel ks.2 with
        | error e => simp only [hs, Except.map]; exact trivial
        | ok ps =>
            simp only [hs, Except.map]
            exact ⟨⟨fun _ => hc, fun _ => rfl⟩,
              by simp only [specConfidence, draw1, draw2, if_pos hc]⟩
  · simp only [if_neg hc]
    cases hk : apiRandint 2 3 fuel (apiRandom (apiRandom ⟨seedGen n, []⟩).2).2 with
    | error e => simp only [hk, Except.bind]; exact trivial
    | ok ks =>
        simp only [hk, Except.bind]
        cases hs : apiSample human_indicators ks.1 fuel ks.2 with
        | error e => simp only [hs, Except.map]; exact trivial
        | ok ps =>
            simp only [hs, Except.map]
            exact ⟨⟨fun h => Label.noConfusion h, fun h => absurd h hc⟩,
              by simp only [specConfidence, draw1, draw2, if_neg hc]⟩

/-! ## C5 — label threshold and confidence formula -/

/-- C5: For every payload, on every successful run of either
`mock_ai_detection`, the label is AI_GENERATED exactly when the first
uniform draw from the generator seeded by the payload's fingerprint is
below 0.6 (else HUMAN), and the confidence is
`round(0.75 + d2·0.23, 4)` for AI_GENERATED and `round(0.70 + d2·0.25, 4)`
for HUMAN, `d2` being the second uniform draw. -/
theorem C5_classification (fuel : Nat) (b : List Nat) (l : Language) (σ : Gen) :
    onOk (fun o =>
        (o.classification = Label.AI_GENERATED ↔
            (draw1 (hashValue b) : ℚ) / TwoPow53 < 6 / 10) ∧
          o.confidence = pyRound (specConfidence (hashValue b)) 4)
      (MainPy.mock_ai_detection fuel b l σ) ∧
    onOk (fun o =>
        (o.classification = Label.AI_GENERATED ↔
            (draw1 (hashValue b) : ℚ) / TwoPow53 < 6 / 10) ∧
          o.confidence = pyRound (specConfidence (hashValue b)) 4)
      (MPy.mock_ai_detection fuel b l σ) :=
  ⟨MainPy.classify_main fuel (hashValue b) l σ, MPy.classify_m fuel (hashValue b) l σ⟩

/-! ## C6 — agreement of the two entry points -/

/-- Label of a detection outcome (defaulting on errors). -/
def classOf : Except Err DetectOut → Label
  | .ok o => o.classification
  | .error _ => Label.HUMAN

/-- Confidence of a detection outcome (defaulting on errors). -/
def confOf : Except Err DetectOut → ℚ
  | .ok o => o.confidence
  | .error _ => 0

/-- C6 (amended): on every payload on which both entry points produce a
result, `mock_ai_detection` of `src/main.py` and of `src/m.py` agree on
label and confidence (they share fingerprint, seeding and the first two
draws); their indicator sets however differ in general (see the
counterexample at the reference payload). -/
theorem C6_label_confidence_agree (fuel : Nat) (b : List Nat) (l : Language)
    (σ : Gen)
    (h1 : (MainPy.mock_ai_detection fuel b l σ).isOk = true)
    (h2 : (MPy.mock_ai_detection fuel b l σ).isOk = true) :
    classOf (MainPy.mock_ai_detection fuel b l σ) =
        classOf (MPy.mock_ai_detection fuel b l σ) ∧
      confOf (MainPy.mock_ai_detection fuel b l σ) =
        confOf (MPy.mock_ai_detection fuel b l σ) := by
  cases hm1 : MainPy.mock_ai_detection fuel b l σ with
  | error e => rw [hm1] at h1; simp [Except.isOk, Except.toBool] at h1
  | ok o1 =>
      cases hm2 : MPy.mock_ai_detection fuel b l σ with
      | error e => rw [hm2] at h2; simp [Except.isOk, Except.toBool] at h2
      | ok o2 =>
          have hA := MainPy.classify_main fuel (hashValue b) l σ
          have hB := MPy.classify_m fuel (hashValue b) l σ
          rw [show MainPy.mockCore fuel (hashValue b) l σ = .ok o1 from hm1] at hA
          rw [show MPy.mockCore fuel (hashValue b) l σ = .ok o2 from hm2] at hB
          simp only [onOk] at hA hB
          simp only [classOf, confOf]
          constructor
          · by_cases hc : (draw1 (hashValue b) : ℚ) / TwoPow53 < 6 / 10
            · rw [hA.1.2 hc, hB.1.2 hc]
            · cases ho1 : o1.classification with
              | AI_GENERATED => exact absurd (hA.1.1 ho1) hc
              | HUMAN =>
                  cases ho2 : o2.classification with
                  | AI_GENERATED => exact absurd (hB.1.1 ho2) hc
                  | HUMAN => rfl
          · rw [hA.2, hB.2]

theorem C6_agree_witness :
    (MainPy.mock_ai_detection 60 [255, 251, 49, 55, 55, 49] .english g₀).isOk = true ∧
      (MPy.mock_ai_detection 60 [255, 251, 49, 55, 55, 49] .english g₀).isOk = true ∧
      classOf (MainPy.mock_ai_detection 60 [255, 251, 49, 55, 55, 49] .english g₀) =
        classOf (MPy.mock_ai_detection 60 [255, 251, 49, 55, 55, 49] .english g₀) :=
  ⟨by decide, by decide,
    (C6_label_confidence_agree 60 [255, 251, 49, 55, 55, 49] .english g₀
      (by decide) (by decide)).1⟩

theorem MainPy.mock_golden_main :
    MainPy.mock_ai_detection 60 goldenBytes .english g₀ =
      MainPy.mockCore 60 426107664488648074 .english g₀ := by
  rw [MainPy.mock_ai_detection, hashValue_golden]

theorem MPy.mock_golden_m :
    MPy.mock_ai_detection 60 goldenBytes .english g₀ =
      MPy.mockCore 60 426107664488648074 .english g₀ := by
  rw [MPy.mock_ai_detection, hashValue_golden]

/-- C6 (counterexample): at the spec's reference payload (`\xff\xfb`
followed by 1600 zero bytes) the two entry points agree on label
(AI_GENERATED) and confidence (0.9415) but return different indicator
sets: `src/main.py` samples "Irregular breathing pattern intervals",
`src/m.py` does not — so they do not produce the same
(label, confidence, indicator set) triple. -/
theorem C6_counterexample :
    (MainPy.mock_ai_detection 60 goldenBytes .english g₀).map
        (fun o => (o.classification, o.confidence, o.explanation.primary_indicators)) =
      .ok (Label.AI_GENERATED, 1883 / 2000,
        ["Irregular breathing pattern intervals",
         "Unnatural pitch consistency detected",
         "Prosody smoothness exceeds human baseline"]) ∧
      (MPy.mock_ai_detection 60 goldenBytes .english g₀).map
        (fun o => (o.classification, o.confidence, o.explanation.primary_indicators)) =
      .ok (Label.AI_GENERATED, 1883 / 2000,
        ["Unnatural pitch consistency detected",
         "Phase coherence artifacts present",
         "Prosody smoothness exceeds human baseline"]) ∧
      ("Irregular breathing pattern intervals" ∈
          ["Irregular breathing pattern intervals",
           "Unnatural pitch consistency detected",
           "Prosody smoothness exceeds human baseline"] ∧
        "Irregular breathing pattern intervals" ∉
          ["Unnatural pitch consistency detected",
           "Phase coherence artifacts present",
           "Prosody smoothness exceeds human baseline"]) := by
  refine ⟨?_, ?_, by decide⟩
  · rw [MainPy.mock_golden_main]; decide
  · rw [MPy.mock_golden_m]; decide

/-! ## C3 — confidence bands -/

/-- The rounded confidence lies in the closed band of its label. -/
def confidenceInBand (o : DetectOut) : Prop :=
  (o.classification = Label.AI_GENERATED →
      75 / 100 ≤ o.confidence ∧ o.confidence ≤ 98 / 100) ∧
    (o.classification = Label.HUMAN →
      70 / 100 ≤ o.confidence ∧ o.confidence ≤ 95 / 100)

theorem specConfidence_band (n : Nat) :
    ((draw1 n : ℚ) / TwoPow53 < 6 / 10 →
        75 / 100 ≤ pyRound (specConfidence n) 4 ∧
          pyRound (specConfidence n) 4 ≤ 98 / 100) ∧
      (¬((draw1 n : ℚ) / TwoPow53 < 6 / 10) →
        70 / 100 ≤ pyRound (specConfidence n) 4 ∧
          pyRound (specConfidence n) 4 ≤ 95 / 100) := by
  have h0 : 0 ≤ (draw2 n : ℚ) / TwoPow53 := randA_q_nonneg _
  have h1 : (draw2 n : ℚ) / TwoPow53 < 1 := randA_q_lt_one _
  constructor
  · intro hc
    have hb := round_affine_band (b := 75 / 100) (c := 23 / 100) (d := 4)
      (L := 7500) (H := 9800) h0 h1 (by norm_num) (by norm_num) (by norm_num)
    rw [specConfidence, if_pos hc]
    exact ⟨hb.1, le_trans hb.2 (by norm_num)⟩
  · intro hc
    have hb := round_affine_band (b := 70 / 100) (c := 25 / 100) (d := 4)
      (L := 7000) (H := 9500) h0 h1 (by norm_num) (by norm_num) (by norm_num)
    rw [specConfidence, if_neg hc]
    exact ⟨hb.1, le_trans hb.2 (by norm_num)⟩

/-- C3 (amended): the returned confidence stays in the closed band of its
label: AI_GENERATED ⇒ confidence ∈ [0.75, 0.98], HUMAN ⇒
confidence ∈ [0.70, 0.95].  The pre-rounding value is strictly below the
upper endpoint, but rounding to 4 decimal places can reach it (see the
counterexample), so the half-open bands of the original claim fail. -/
theorem C3_confidence_band (fuel : Nat) (b : List Nat) (l : Language) (σ : Gen) :
    onOk confidenceInBand (MainPy.mock_ai_detection fuel b l σ) ∧
      onOk confidenceInBand (MPy.mock_ai_detection fuel b l σ) := by
  constructor
  · cases hm : MainPy.mock_ai_detection fuel b l σ with
    | error e => exact trivial
    | ok o =>
        have hA := MainPy.classify_main fuel (hashValue b) l σ
        rw [show MainPy.mockCore fuel (hashValue b) l σ = .ok o from hm] at hA
        simp only [onOk] at hA ⊢
        obtain ⟨hiff, hconf⟩ := hA
        constructor
        · intro hcls
          rw [hconf]
          exact (specConfidence_band (hashValue b)).1 (hiff.1 hcls)
        · intro hcls
          rw [hconf]
          refine (specConfidence_band (hashValue b)).2 ?_
          intro hcon
          have h := hiff.2 hcon
          rw [hcls] at h
          exact Label.noConfusion h
  · cases hm : MPy.mock_ai_detection fuel b l σ with
    | error e => exact trivial
    | ok o =>
        have hA := MPy.classify_m fuel (hashValue b) l σ
        rw [show MPy.mockCore fuel (hashValue b) l σ = .ok o from hm] at hA
        simp only [onOk] at hA ⊢
        obtain ⟨hiff, hconf⟩ := hA
        constructor
        · intro hcls
          rw [hconf]
          exact (specConfidence_band (hashValue b)).1 (hiff.1 hcls)
        · intro hcls
          rw [hconf]
          refine (specConfidence_band (hashValue b)).2 ?_
          intro hcon
          have h := hiff.2 hcon
          rw [hcls] at h
          exact Label.noConfusion h

/-- C3 (counterexample): the 6-byte payload `ff fb 31 37 37 31` passes
format validation, is classified HUMAN, and its rounded confidence is
exactly 0.95 — the open upper bound of the claimed band `[0.70, 0.95)` is
attained after rounding to 4 decimal places (the pre-rounding value is
0.94997...). -/
theorem C3_counterexample :
    (decode_audio [255, 251, 49, 55, 55, 49]).isOk = true ∧
      (MainPy.mock_ai_detection 60 [255, 251, 49, 55, 55, 49] .english g₀).map
        (fun o => (o.classification, o.confidence)) = .ok (Label.HUMAN, 19 / 20) :=
  ⟨by decide, by decide⟩

/-! ## C4 — explanation validity -/

/-- The explanation invariants: 2–3 duplicate-free indicators from the
catalog matching the label, and the three sub-scores in their fixed
closed ranges. -/
def explanationOK (o : DetectOut) : Prop :=
  (o.explanation.primary_indicators.length = 2 ∨
      o.explanation.primary_indicators.length = 3) ∧
    o.explanation.primary_indicators.Nodup ∧
    (∀ x ∈ o.explanation.primary_indicators,
      x ∈ (if o.classification = Label.AI_GENERATED then ai_indicators
           else human_indicators)) ∧
    (7 / 10 ≤ o.explanation.spectral_analysis ∧
      o.explanation.spectral_analysis ≤ 95 / 100) ∧
    (65 / 100 ≤ o.explanation.prosodic_features ∧
      o.explanation.prosodic_features ≤ 92 / 100) ∧
    (7 / 10 ≤ o.explanation.artifact_detection ∧
      o.explanation.artifact_detection ≤ 98 / 100)

/-- A rounded `random.uniform(l, h)` stays in `[l, h]`. -/
theorem uniform_round3_band (s : RState) {l h : ℚ} {L H : ℤ}
    (hL : (L : ℚ) = l * 10 ^ 3) (hH : (H : ℚ) = h * 10 ^ 3) (hlh : l < h) :
    l ≤ pyRound (apiUniform l h s).1 3 ∧ pyRound (apiUniform l h s).1 3 ≤ h := by
  rw [apiUniform_fst, mul_comm]
  have h0 := randA_q_nonneg s.g
  have h1 := randA_q_lt_one s.g
  have hb := round_affine_band (b := l) (c := h - l) (d := 3) (L := L) (H := H)
    h0 h1 hL (by rw [hH]; ring) (by linarith)
  exact ⟨hb.1, by have := hb.2; linarith⟩

/-- Any 2- or 3-element pool pick from the AI catalog is duplicate-free
and inside the catalog. -/
theorem pick_ok_ai {k : Nat} {js : List Nat} (hk : k = 2 ∨ k = 3)
    (hlen : js.length = k) (hbnd : idxBounded 5 js) :
    (poolPick ai_indicators 5 js).Nodup ∧
      ∀ x ∈ poolPick ai_indicators 5 js, x ∈ ai_indicators := by
  cases hk with
  | inl h2 =>
      obtain ⟨a, b, rfl⟩ := List.length_eq_two.mp (h2 ▸ hlen)
      norm_num [idxBounded] at hbnd
      exact aiPick2_ok a hbnd.1 b hbnd.2
  | inr h3 =>
      obtain ⟨a, b, c, rfl⟩ := List.length_eq_three.mp (h3 ▸ hlen)
      norm_num [idxBounded] at hbnd
      exact aiPick3_ok a hbnd.1 b hbnd.2.1 c hbnd.2.2

/-- Any 2- or 3-element pool pick from the human catalog is
duplicate-free and inside the catalog. -/
theorem pick_ok_hu {k : Nat} {js : List Nat} (hk : k = 2 ∨ k = 3)
    (hlen : js.length = k) (hbnd : idxBounded 5 js) :
    (poolPick human_indicators 5 js).Nodup ∧
      ∀ x ∈ poolPick human_indicators 5 js, x ∈ human_indicators := by
  cases hk with
  | inl h2 =>
      obtain ⟨a, b, rfl⟩ := List.length_eq_two.mp (h2 ▸ hlen)
      norm_num [idxBounded] at hbnd
      exact huPick2_ok a hbnd.1 b hbnd.2
  | inr h3 =>
      obtain ⟨a, b, c, rfl⟩ := List.length_eq_three.mp (h3 ▸ hlen)
      norm_num [idxBounded] at hbnd
      exact huPick3_ok a hbnd.1 b hbnd.2.1 c hbnd.2.2

theorem MainPy.explanation_ok_main (fuel n : Nat) (l : Language) (σ : Gen) :
    onOk explanationOK (MainPy.mockCore fuel n l σ) := by
  simp only [MainPy.mockCore, apiRandom_fst, apiRandom_g]
  by_cases hc : ((randA (seedGen n)).1 : ℚ) / TwoPow53 < 6 / 10
  · simp only [if_pos hc]
    cases hs : apiSample ai_indicators 3 fuel
        (apiRandom (apiRandom ⟨seedGen n, []⟩).2).2 with
    | error e => simp only [hs, Except.map]; exact trivial
    | ok ps =>
        obtain ⟨prim, s3⟩ := ps
        simp only [hs, Except.map]
        obtain ⟨hsa, hlog⟩ := apiSample_ok hs
        obtain ⟨js, hres, hlen, hbnd⟩ := sampleAux_poolPick hsa
        have h5 : ai_indicators.length = 5 := rfl
        rw [h5] at hres hbnd
        have hpick := pick_ok_ai (Or.inr rfl) hlen hbnd
        refine ⟨?_, ?_, ?_, ?_, ?_, ?_⟩
        · show prim.length = 2 ∨ prim.length = 3
          right
          rw [hres, poolPick_length, hlen]
        · show prim.Nodup
          rw [hres]
          exact hpick.1
        · show ∀ x ∈ prim,
            x ∈ (if Label.AI_GENERATED = Label.AI_GENERATED then ai_indicators
                 else human_indicators)
          rw [if_pos rfl]
          intro x hx
          rw [hres] at hx
          exact hpick.2 x hx
        · exact uniform_round3_band _ (L := 700) (H := 950)
            (by norm_num) (by norm_num) (by norm_num)
        · exact uniform_round3_band _ (L := 650) (H := 920)
            (by norm_num) (by norm_num) (by norm_num)
        · exact uniform_round3_band _ (L := 700) (H := 980)
            (by norm_num) (by norm_num) (by norm_num)
  · simp only [if_neg hc]
    cases hs : apiSample human_indicators 3 fuel
        (apiRandom (apiRandom ⟨seedGen n, []⟩).2).2 with
    | error e => simp only [hs, Except.map]; exact trivial
    | ok ps =>
        obtain ⟨prim, s3⟩ := ps
        simp only [hs, Except.map]
        obtain ⟨hsa, hlog⟩ := apiSample_ok hs
        obtain ⟨js, hres, hlen, hbnd⟩ := sampleAux_poolPick hsa
        have h5 : human_indicators.length = 5 := rfl
        rw [h5] at hres hbnd
        have hpick := pick_ok_hu (Or.inr rfl) hlen hbnd
        refine ⟨?_, ?_, ?_, ?_, ?_, ?_⟩
        · show prim.length = 2 ∨ prim.length = 3
          right
          rw [hres, poolPick_length, hlen]
        · show prim.Nodup
          rw [hres]
          exact hpick.1
        · show ∀ x ∈ prim,
            x ∈ (if Label.HUMAN = Label.AI_GENERATED then ai_indicators
                 else human_indicators)
          rw [if_neg (fun h => Label.noConfusion h)]
          intro x hx
          rw [hres] at hx
          exact hpick.2 x hx
        · exact uniform_round3_band _ (L := 700) (H := 950)
            (by norm_num) (by norm_num) (by norm_num)
        · exact uniform_round3_band _ (L := 650) (H := 920)
            (by norm_num) (by norm_num) (by norm_num)
        · exact uniform_round3_band _ (L := 700) (H := 980)
            (by norm_num) (by norm_num) (by norm_num)

theorem MPy.explanation_ok_m (fuel n : Nat) (l : Language) (σ : Gen) :
    onOk explanationOK (MPy.mockCore fuel n l σ) := by
  simp only [MPy.mockCore, apiRandom_fst, apiRandom_g]
  by_cases hc : ((randA (seedGen n)).1 : ℚ) / TwoPow53 < 6 / 10
  · simp only [if_pos hc]
    cases hk : apiRandint 2 3 fuel (apiRandom (apiRandom ⟨seedGen n, []⟩).2).2 with
    | error e => simp only [hk, Except.bind]; exact trivial
    | ok ks =>
        obtain ⟨k, s2⟩ := ks
        simp only [hk, Except.bind]
        obtain ⟨hk23, hklog⟩ := apiRandint23_ok hk
        cases hs : apiSample ai_indicators k fuel s2 with
        | error e => simp only [hs, Except.map]; exact trivial
        | ok ps =>
            obtain ⟨prim, s3⟩ := ps
            simp only [hs, Except.map]
            obtain ⟨hsa, hlog⟩ := apiSample_ok hs
            obtain ⟨js, hres, hlen, hbnd⟩ := sampleAux_poolPick hsa
            have h5 : ai_indicators.length = 5 := rfl
            rw [h5] at hres hbnd
            have hpick := pick_ok_ai hk23 hlen hbnd
            refine ⟨?_, ?_, ?_, ?_, ?_, ?_⟩
            · show prim.length = 2 ∨ prim.length = 3
              rw [hres, poolPick_length, hlen]
              exact hk23
            · show prim.Nodup
              rw [hres]
              exact hpick.1
            · show ∀ x ∈ prim,
                x ∈ (if Label.AI_GENERATED = Label.AI_GENERATED then ai_indicators
                     else human_indicators)
              rw [if_pos rfl]
              intro x hx
              rw [hres] at hx
              exact hpick.2 x hx
            · exact uniform_round3_band _ (L := 700) (H := 950)
                (by norm_num) (by norm_num) (by norm_num)
            · exact uniform_round3_band _ (L := 650) (H := 920)
                (by norm_num) (by norm_num) (by norm_num)
            · exact uniform_round3_band _ (L := 700) (H := 980)
                (by norm_num) (by norm_num) (by norm_num)
  · simp only [if_neg hc]
    cases hk : apiRandint 2 3 fuel (apiRandom (apiRandom ⟨seedGen n, []⟩).2).2 with
    | error e => simp only [hk, Except.bind]; exact trivial
    | ok ks =>
        obtain ⟨k, s2⟩ := ks
        simp only [hk, Except.bind]
        obtain ⟨hk23, hklog⟩ := apiRandint23_ok hk
        cases hs : apiSample human_indicators k fuel s2 with
        | error e => simp only [hs, Except.map]; exact trivial
        | ok ps =>
            obtain ⟨prim, s3⟩ := ps
            simp only [hs, Except.map]
            obtain ⟨hsa, hlog⟩ := apiSample_ok hs
            obtain ⟨js, hres, hlen, hbnd⟩ := sampleAux_poolPick hsa
            have h5 : human_indicators.length = 5 := rfl
            rw [h5] at hres hbnd
            have hpick := pick_ok_hu hk23 hlen hbnd
            refine ⟨?_, ?_, ?_, ?_, ?_, ?_⟩
            · show prim.length = 2 ∨ prim.length = 3
              rw [hres, poolPick_length, hlen]
              exact hk23
            · show prim.Nodup
              rw [hres]
              exact hpick.1
            · show ∀ x ∈ prim,
                x ∈ (if Label.HUMAN = Label.AI_GENERATED then ai_indicators
                     else human_indicators)
              rw [if_neg (fun h => Label.noConfusion h)]
              intro x hx
              rw [hres] at hx
              exact hpick.2 x hx
            · exact uniform_round3_band _ (L := 700) (H := 950)
                (by norm_num) (by norm_num) (by norm_num)
            · exact uniform_round3_band _ (L := 650) (H := 920)
                (by norm_num) (by norm_num) (by norm_num)
            · exact uniform_round3_band _ (L := 700) (H := 980)
                (by norm_num) (by norm_num) (by norm_num)

/-- C4: On every successful run of either `mock_ai_detection`, the
explanation's indicator list has length 2 or 3 (always 3 in
`src/main.py`), all entries come from the catalog matching the returned
label (never mixed), no entry repeats, and the three sub-scores (rounded
to 3 decimals) lie in their fixed ranges: spectral_analysis ∈
[0.70, 0.95], prosodic_features ∈ [0.65, 0.92], artifact_detection ∈
[0.70, 0.98]. -/
theorem C4_explanation (fuel : Nat) (b : List Nat) (l : Language) (σ : Gen) :
    onOk explanationOK (MainPy.mock_ai_detection fuel b l σ) ∧
      onOk explanationOK (MPy.mock_ai_detection fuel b l σ) :=
  ⟨MainPy.explanation_ok_main fuel (hashValue b) l σ,
    MPy.explanation_ok_m fuel (hashValue b) l σ⟩

/-! ## C2 — draw order -/

/-- The sequence of module-level draws made by `src/main.py`'s
`mock_ai_detection`: no indicator-count draw. -/
def mainLog : List Draw :=
  [.rand, .rand, .sample 3, .uniform (7 / 10) (95 / 100),
   .uniform (65 / 100) (92 / 100), .uniform (70 / 100) (98 / 100)]

/-- The documented draw order, as made by `src/m.py`: label, confidence,
indicator count, indicator sample, three sub-score draws. -/
def docLog (k : Nat) : List Draw :=
  [.rand, .rand, .randint 2 3, .sample k, .uniform (7 / 10) (95 / 100),
   .uniform (65 / 100) (92 / 100), .uniform (70 / 100) (98 / 100)]

theorem MainPy.log_ok_main (fuel n : Nat) (l : Language) (σ : Gen) :
    onOk (fun o => o.log = mainLog) (MainPy.mockCore fuel n l σ) := by
  simp only [MainPy.mockCore]
  cases hs : apiSample
      (if ((apiRandom ⟨seedGen n, []⟩).1 : ℚ) / TwoPow53 < 6 / 10 then ai_indicators
       else human_indicators) 3 fuel (apiRandom (apiRandom ⟨seedGen n, []⟩).2).2 with
  | error e => simp only [hs, Except.map]; exact trivial
  | ok ps =>
      obtain ⟨prim, s3⟩ := ps
      simp only [hs, Except.map]
      obtain ⟨hsa, hlog⟩ := apiSample_ok hs
      simp only [onOk, apiUniform_log, hlog, apiRandom_log, mainLog]
      simp

theorem MPy.log_ok_m (fuel n : Nat) (l : Language) (σ : Gen) :
    onOk (fun o => o.log = docLog 2 ∨ o.log = docLog 3) (MPy.mockCore fuel n l σ) := by
  simp only [MPy.mockCore]
  cases hk : apiRandint 2 3 fuel (apiRandom (apiRandom ⟨seedGen n, []⟩).2).2 with
  | error e => simp only [hk, Except.bind]; exact trivial
  | ok ks =>
      obtain ⟨k, s2⟩ := ks
      simp only [hk, Except.bind]
      obtain ⟨hk23, hklog⟩ := apiRandint23_ok hk
      cases hs : apiSample
          (if ((apiRandom ⟨seedGen n, []⟩).1 : ℚ) / TwoPow53 < 6 / 10 then ai_indicators
           else human_indicators) k fuel s2 with
      | error e => simp only [hs, Except.map]; exact trivial
      | ok ps =>
          obtain ⟨prim, s3⟩ := ps
          simp only [hs, Except.map]
          obtain ⟨hsa, hlog⟩ := apiSample_ok hs
          cases hk23 with
          | inl h2 =>
              subst h2
              left
              simp only [onOk, apiUniform_log, hlog, hklog, apiRandom_log, docLog]
              simp
          | inr h3 =>
              subst h3
              right
              simp only [onOk, apiUniform_log, hlog, hklog, apiRandom_log, docLog]
              simp

/-- C2 (amended): `src/m.py`'s pipeline consumes its module-level draws
in exactly the documented order — (1) label, (2) confidence, (3)
indicator count, (4) indicator sample, (5)–(7) the three sub-score
draws.  `src/main.py`'s pipeline, however, never draws an indicator
count (it samples a fixed `k = 3`), so its order is (1) label, (2)
confidence, (3) indicator sample, (4)–(6) sub-score draws. -/
theorem C2_draw_order (fuel : Nat) (b : List Nat) (l : Language) (σ : Gen) :
    onOk (fun o => o.log = docLog 2 ∨ o.log = docLog 3)
        (MPy.mock_ai_detection fuel b l σ) ∧
      onOk (fun o => o.log = mainLog) (MainPy.mock_ai_detection fuel b l σ) :=
  ⟨MPy.log_ok_m fuel (hashValue b) l σ, MainPy.log_ok_main fuel (hashValue b) l σ⟩

/-- C2 (counterexample): on the valid payload `ff fb 31 37 37 31`,
`src/main.py`'s `mock_ai_detection` makes six module-level draws and none
of them is the indicator-count draw `randint(2, 3)` — the documented
7-draw order does not hold for this entry point. -/
theorem C2_counterexample :
    (decode_audio [255, 251, 49, 55, 55, 49]).isOk = true ∧
      (MainPy.mock_ai_detection 60 [255, 251, 49, 55, 55, 49] .english g₀).map
        (fun o => o.log) = .ok mainLog ∧
      Draw.randint 2 3 ∉ mainLog ∧ mainLog.length = 6 :=
  ⟨by decide, by decide, by decide, by decide⟩

/-! ## C9 — totality after validation -/

theorem apiSample_no_badSample {pool : List String} {k fuel : Nat} {s : RState}
    (hk : k ≤ pool.length) : apiSample pool k fuel s ≠ .error .badSample := by
  simp only [apiSample, if_pos hk]
  intro h
  cases hsa : sampleAux pool pool.length k fuel s.g with
  | error e =>
      simp only [hsa] at h
      cases h
      exact sampleAux_no_badSample hsa
  | ok q =>
      obtain ⟨r2, g2⟩ := q
      simp only [hsa] at h
      exact Except.noConfusion h

theorem apiRandint_no_badSample {lo hi fuel : Nat} {s : RState} :
    apiRandint lo hi fuel s ≠ .error .badSample := by
  simp only [apiRandint]
  intro h
  cases hr : randbelow (hi + 1 - lo) fuel s.g with
  | error e =>
      simp only [hr] at h
      cases h
      cases randbelow_err hr
  | ok p =>
      obtain ⟨r, g⟩ := p
      simp only [hr] at h
      exact Except.noConfusion h

theorem poolLen (c : Prop) [h : Decidable c] :
    3 ≤ (if c then ai_indicators else human_indicators).length := by
  cases h with
  | isTrue hc => rw [if_pos hc]; decide
  | isFalse hc => rw [if_neg hc]; decide

theorem MainPy.no_badSample_main (fuel n : Nat) (l : Language) (σ : Gen) :
    MainPy.mockCore fuel n l σ ≠ .error .badSample := by
  simp only [MainPy.mockCore]
  cases hs : apiSample
      (if ((apiRandom ⟨seedGen n, []⟩).1 : ℚ) / TwoPow53 < 6 / 10 then ai_indicators
       else human_indicators) 3 fuel (apiRandom (apiRandom ⟨seedGen n, []⟩).2).2 with
  | error e =>
      simp only [hs, Except.map]
      intro h
      cases h
      exact apiSample_no_badSample (poolLen _) hs
  | ok ps =>
      simp only [hs, Except.map]
      exact fun h => Except.noConfusion h

theorem MPy.no_badSample_m (fuel n : Nat) (l : Language) (σ : Gen) :
    MPy.mockCore fuel n l σ ≠ .error .badSample := by
  simp only [MPy.mockCore]
  cases hk : apiRandint 2 3 fuel (apiRandom (apiRandom ⟨seedGen n, []⟩).2).2 with
  | error e =>
      simp only [hk, Except.bind]
      intro h
      cases h
      exact apiRandint_no_badSample hk
  | ok ks =>
      obtain ⟨k, s2⟩ := ks
      simp only [hk, Except.bind]
      obtain ⟨hk23, hklog⟩ := apiRandint23_ok hk
      cases hs : apiSample
          (if ((apiRandom ⟨seedGen n, []⟩).1 : ℚ) / TwoPow53 < 6 / 10 then ai_indicators
           else human_indicators) k fuel s2 with
      | error e =>
          simp only [hs, Except.map]
          intro h
          cases h
          rcases hk23 with rfl | rfl
          · exact apiSample_no_badSample (le_trans (by decide) (poolLen _)) hs
          · exact apiSample_no_badSample (poolLen _) hs
      | ok ps =>
          simp only [hs, Except.map]
          exact fun h => Except.noConfusion h

/-- The shape of every accepted `decode_audio` result. -/
theorem decode_audio_ok_shape {b : List Nat} {p : List Nat × ℚ}
    (h : decode_audio b = .ok p) : p = (b, (b.length : ℚ) / 1024 / 16) := by
  simp only [decode_audio] at h
  split at h
  · cases h; rfl
  · exact Except.noConfusion h

/-- C9: once a payload is past validation, the downstream pipeline never
takes the `ValueError` branch of `random.sample`: the sampled count never
exceeds the 5-entry catalog, for every payload, every seed and every fuel
bound on the rejection loops; `detect_voice` never surfaces that error
either.  (The only remaining non-`ok` outcome of the embedding is the
artificial fuel bound on `_randbelow`'s probabilistically-terminating
rejection loop.) -/
theorem C9_no_error_branch (fuel : Nat) (b : List Nat) (l : Language) (σ : Gen) :
    MainPy.mock_ai_detection fuel b l σ ≠ .error .badSample ∧
      MPy.mock_ai_detection fuel b l σ ≠ .error .badSample ∧
      detect_voice fuel b l σ ≠ .error (.internal .badSample) := by
  refine ⟨MainPy.no_badSample_main fuel (hashValue b) l σ,
    MPy.no_badSample_m fuel (hashValue b) l σ, ?_⟩
  intro h
  cases hd : decode_audio b with
  | error msg =>
      have hsup : SUPPORTED_LANGUAGES.contains l = true := by cases l <;> rfl
      rw [detect_voice, hsup, if_neg (by decide : ¬(true = false)), hd] at h
      exact ApiErr.noConfusion (Except.error.inj h)
  | ok p =>
      have hd2 : decode_audio b = .ok (b, (b.length : ℚ) / 1024 / 16) := by
        rw [hd, decode_audio_ok_shape hd]
      rw [detect_voice_valid fuel b l σ hd2] at h
      cases hm : MainPy.mock_ai_detection fuel b l σ with
      | error e =>
          rw [hm] at h
          simp only [assemble] at h
          cases Except.error.inj h
          exact MainPy.no_badSample_main fuel (hashValue b) l σ hm
      | ok o =>
          rw [hm] at h
          simp only [assemble] at h
          exact Except.noConfusion h

/-! ## C10 — the language tag does not influence detection -/

/-- Everything in the detection outcome except the language-derived
caption. -/
def coreView (o : DetectOut) :
    Label × ℚ × List String × ℚ × ℚ × ℚ :=
  (o.classification, o.confidence, o.explanation.primary_indicators,
    o.explanation.spectral_analysis, o.explanation.prosodic_features,
    o.explanation.artifact_detection)

theorem MainPy.lang_core_main (fuel n : Nat) (l1 l2 : Language) (σ : Gen) :
    (MainPy.mockCore fuel n l1 σ).map coreView =
      (MainPy.mockCore fuel n l2 σ).map coreView := by
  simp only [MainPy.mockCore]
  cases hs : apiSample
      (if ((apiRandom ⟨seedGen n, []⟩).1 : ℚ) / TwoPow53 < 6 / 10 then ai_indicators
       else human_indicators) 3 fuel (apiRandom (apiRandom ⟨seedGen n, []⟩).2).2 with
  | error e => simp only [hs, Except.map]
  | ok ps => simp only [hs, Except.map, coreView]

theorem MPy.lang_core_m (fuel n : Nat) (l1 l2 : Language) (σ : Gen) :
    (MPy.mockCore fuel n l1 σ).map coreView =
      (MPy.mockCore fuel n l2 σ).map coreView := by
  simp only [MPy.mockCore]
  cases hk : apiRandint 2 3 fuel (apiRandom (apiRandom ⟨seedGen n, []⟩).2).2 with
  | error e => simp only [hk, Except.bind]
  | ok ks =>
      simp only [hk, Except.bind]
      cases hs : apiSample
          (if ((apiRandom ⟨seedGen n, []⟩).1 : ℚ) / TwoPow53 < 6 / 10 then ai_indicators
           else human_indicators) ks.1 fuel ks.2 with
      | error e => simp only [hs, Except.map]
      | ok ps => simp only [hs, Except.map, coreView]

theorem MainPy.lang_caption_main (fuel n : Nat) (l : Language) (σ : Gen) :
    (MainPy.mockCore fuel n l σ).map
        (fun o => o.explanation.language_specific_analysis) =
      (MainPy.mockCore fuel n l σ).map
        (fun _ => capTag l ++ " phonetic patterns analyzed") := by
  simp only [MainPy.mockCore]
  cases hs : apiSample
      (if ((apiRandom ⟨seedGen n, []⟩).1 : ℚ) / TwoPow53 < 6 / 10 then ai_indicators
       else human_indicators) 3 fuel (apiRandom (apiRandom ⟨seedGen n, []⟩).2).2 with
  | error e => simp only [hs, Except.map]
  | ok ps => simp only [hs, Except.map]

theorem MPy.lang_caption_m (fuel n : Nat) (l : Language) (σ : Gen) :
    (MPy.mockCore fuel n l σ).map
        (fun o => o.explanation.language_specific_analysis) =
      (MPy.mockCore fuel n l σ).map
        (fun _ => capTag l ++ " phonetic patterns analyzed") := by
  simp only [MPy.mockCore]
  cases hk : apiRandint 2 3 fuel (apiRandom (apiRandom ⟨seedGen n, []⟩).2).2 with
  | error e => simp only [hk, Except.bind, Except.map]
  | ok ks =>
      simp only [hk, Except.bind]
      cases hs : apiSample
          (if ((apiRandom ⟨seedGen n, []⟩).1 : ℚ) / TwoPow53 < 6 / 10 then ai_indicators
           else human_indicators) ks.1 fuel ks.2 with
      | error e => simp only [hs, Except.map]
      | ok ps => simp only [hs, Except.map]

/-- C10: the declared language tag does not influence detection: for the
same payload bytes, any two supported languages give the same label,
confidence, indicator list and sub-scores (in both entry points); only
the caption — the capitalized tag substituted into the fixed template —
and the echoed `language` field of the response depend on the tag. -/
theorem C10_language_noninterference (fuel : Nat) (b : List Nat)
    (l1 l2 : Language) (σ : Gen) :
    ((MainPy.mock_ai_detection fuel b l1 σ).map coreView =
        (MainPy.mock_ai_detection fuel b l2 σ).map coreView ∧
      (MPy.mock_ai_detection fuel b l1 σ).map coreView =
        (MPy.mock_ai_detection fuel b l2 σ).map coreView) ∧
      ((MainPy.mock_ai_detection fuel b l1 σ).map
          (fun o => o.explanation.language_specific_analysis) =
        (MainPy.mock_ai_detection fuel b l1 σ).map
          (fun _ => capTag l1 ++ " phonetic patterns analyzed") ∧
        (MPy.mock_ai_detection fuel b l1 σ).map
          (fun o => o.explanation.language_specific_analysis) =
        (MPy.mock_ai_detection fuel b l1 σ).map
          (fun _ => capTag l1 ++ " phonetic patterns analyzed")) ∧
      (detect_voice fuel b l1 σ).map (fun r => r.language) =
        (detect_voice fuel b l1 σ).map (fun _ => l1) := by
  refine ⟨⟨MainPy.lang_core_main fuel (hashValue b) l1 l2 σ,
      MPy.lang_core_m fuel (hashValue b) l1 l2 σ⟩,
    ⟨MainPy.lang_caption_main fuel (hashValue b) l1 σ,
      MPy.lang_caption_m fuel (hashValue b) l1 σ⟩, ?_⟩
  cases hd : decode_audio b with
  | error msg =>
      have hsup : SUPPORTED_LANGUAGES.contains l1 = true := by cases l1 <;> rfl
      rw [detect_voice, hsup, if_neg (by decide : ¬(true = false)), hd]
      rfl
  | ok p =>
      have hd2 : decode_audio b = .ok (b, (b.length : ℚ) / 1024 / 16) := by
        rw [hd, decode_audio_ok_shape hd]
      rw [detect_voice_valid fuel b l1 σ hd2]
      cases hm : MainPy.mock_ai_detection fuel b l1 σ with
      | error e => simp only [assemble, Except.map]
      | ok o => simp only [assemble, Except.map]

end VoiceDemo
